import Mathlib

attribute [local semireducible] Rat.add Rat.mul Rat.sub Rat.inv

/-!
Verification development for the mpprogress repository
(src/mpprogress/mpprogress.py), a shallow embedding of its data model and
operations, followed by theorems about the claims of the specification.

Modelling conventions:
- Python floats are modelled as exact rationals (`Rat`); none of the
  properties proved below depends on IEEE-754 rounding, NaN or infinity.
- Python exceptions are modelled by the `PyError` type and fallible
  operations return `Except PyError _`.
- `datetime.datetime.now()` is modelled by passing the current time as an
  explicit argument.
- The filesystem is modelled as an association list from paths to file
  contents; the host temp directory (`tempfile.gettempdir()`) is passed as
  an explicit `tempdir` argument.
-/

/-- The Python exception kinds that the code under `src/` can raise.
`alreadyFinishedError` models the `AlreadyFinished` error kind named by the
spec; no code path in the repository produces it. -/
inductive PyError where
  | osError
  | valueError
  | structError
  | typeError
  | attributeError
  | overflowError
  | zeroDivisionError
  | runtimeError (msg : String)
  | alreadyFinishedError
deriving DecidableEq

/-- A `datetime.datetime`: the proleptic-Gregorian day ordinal
(`dt.toordinal()`, between 1 and 3652059 for genuine datetimes) plus the
microseconds elapsed within that day (0 ≤ usec < 86400000000). -/
structure PyDateTime where
  ordinal : Int
  usec : Nat
deriving DecidableEq

/-- A `datetime.timedelta`, normalized the way Python stores it:
`0 ≤ seconds < 86400` and `0 ≤ microseconds < 1000000`, with `days`
carrying the sign (floor-division normalization). -/
structure PyTimedelta where
  days : Int
  seconds : Nat
  microseconds : Nat
deriving DecidableEq

/-- `datetime.datetime.__sub__`: exact difference, normalized with
floor division as Python does. -/
def PyDateTime.sub (a b : PyDateTime) : PyTimedelta :=
  let d : Int := (a.ordinal - b.ordinal) * 86400000000 + ((a.usec : Int) - (b.usec : Int))
  let rem : Nat := (d.fmod 86400000000).toNat
  { days := d.fdiv 86400000000, seconds := rem / 1000000, microseconds := rem % 1000000 }

/-- `datetime.datetime.fromordinal`: midnight of the given day. The Lean
definition is total; the range check (`ValueError` for ordinals outside
1..3652059) is performed by the callers that model Python calls. -/
def PyDateTime.fromordinal (ordinal : Int) : PyDateTime :=
  { ordinal := ordinal, usec := 0 }

/-- `timedelta_seconds(delta)` from the source: `delta.seconds +
delta.microseconds / 1000000`. Note that it ignores `delta.days`, exactly
as the Python code does. -/
def timedelta_seconds (delta : PyTimedelta) : Rat :=
  (delta.seconds : Rat) + (delta.microseconds : Rat) / 1000000

/-- Floor of a rational, computed directly on the normalized
numerator/denominator (the denominator of a `Rat` is positive). -/
def ratFloor (q : Rat) : Int :=
  q.num.fdiv (q.den : Int)

/-- `timedelta(seconds=s)` converts the float seconds to a whole number of
microseconds (Python rounds ties to even; ties never arise in the flows
modelled here, so round-half-up is used). -/
def secondsToUsec (s : Rat) : Int :=
  ratFloor (s * 1000000 + 1 / 2)

/-- `from_time_pair(ordinal, seconds)` from the source.  The Python body
computes `dt = datetime.datetime.fromordinal(ordinal)` (raising
`ValueError` when the ordinal is outside the datetime range) and adds
`datetime.timedelta(seconds=seconds)` (raising `OverflowError` when the
result leaves the datetime range), but it has NO return statement, so on
success the call evaluates to `None`. -/
def from_time_pair (ordinal : Int) (seconds : Rat) : Except PyError (Option PyDateTime) :=
  if ordinal < 1 ∨ 3652059 < ordinal then .error .valueError
  else
    let total : Int := ordinal * 86400000000 + secondsToUsec seconds
    if total < 86400000000 ∨ 3652059 * 86400000000 + 86399999999 < total then
      .error .overflowError
    else .ok none

/-- `to_time_pair(dt)` from the source: the day ordinal together with the
float seconds elapsed since that day's midnight. -/
def to_time_pair (dt : PyDateTime) : Int × Rat :=
  let ordinal := dt.ordinal
  let dt2 := PyDateTime.fromordinal ordinal
  (ordinal, timedelta_seconds (dt.sub dt2))

/-- Does the path start with the posix separator (`b.startswith(sep)` in
`posixpath.join`)? -/
def isAbsPath (s : String) : Bool :=
  match s.data with
  | [] => false
  | c :: _ => c == '/'

/-- Does the path end with the posix separator (`path.endswith(sep)` in
`posixpath.join`)? -/
def endsWithSlash (s : String) : Bool :=
  s.data.getLast? == some '/'

/-- `os.path.join(a, b)` on posix, for a single extra component. -/
def os_path_join (a b : String) : String :=
  if isAbsPath b then b
  else if a = "" ∨ endsWithSlash a then a ++ b
  else a ++ "/" ++ b

/-- `get_temp_path(name)` from the source:
`os.path.join(tempfile.gettempdir(), "mpprogress.{}.tmp".format(name))`,
with the temp directory passed explicitly. -/
def get_temp_path (tempdir : String) (name : String) : String :=
  os_path_join tempdir ("mpprogress." ++ name ++ ".tmp")

/-- The state of a `NameProvider`: its `name_table` set of allocated
names, modelled as a duplicate-free list whose observable is membership. -/
abbrev NameProvider := List String

/-- `NameProvider.get_name(base_name)` from the source: return `base_name`
if it is unused; otherwise try `base_name + str(i)` for `i` in
`range(1000)` and return the first unused candidate; otherwise raise
`RuntimeError("Name provider index exceeds limit")`. -/
def NameProvider.get_name (np : NameProvider) (base_name : String) :
    Except PyError (String × NameProvider) :=
  if base_name ∉ np then .ok (base_name, base_name :: np)
  else
    match (List.range 1000).find? (fun i => decide ((base_name ++ toString i) ∉ np)) with
    | some i => .ok (base_name ++ toString i, (base_name ++ toString i) :: np)
    | none => .error (.runtimeError "Name provider index exceeds limit")

/-- `NameProvider.erase_name(name)` from the source: `set.discard`. -/
def NameProvider.erase_name (np : NameProvider) (name : String) : NameProvider :=
  np.filter (fun x => x != name)

/-- The stored fields of a `ProgressInfo`.  The timestamp fields are
`Option` because Python fields are dynamically typed and
`load_from_bytes` stores `None` into them (see `from_time_pair`). -/
structure ProgressInfo where
  closed : Int
  min_value : Int
  max_value : Int
  count : Int
  start_time : Option PyDateTime
  last_update : Option PyDateTime
  now_update : Option PyDateTime
  update_time_average : Rat
deriving DecidableEq

/-- `ProgressInfo.__init__`: zero bounds and count, three separate
`datetime.datetime.now()` calls for the timestamps, zero average. -/
def ProgressInfo.make (t1 t2 t3 : PyDateTime) : ProgressInfo :=
  { closed := 0, min_value := 0, max_value := 0, count := 0,
    start_time := some t1, last_update := some t2, now_update := some t3,
    update_time_average := 0 }

/-- `ProgressInfo.update_value(count)` from the source, with the fresh
`datetime.datetime.now()` value passed as `now`.  Shifts `last_update`,
stores the new count, refreshes `now_update`, and only when the count
advanced revises the running average by
`avg += (time_diff / proceed_count - avg) / count`.  A `None` in the old
`now_update` makes the `now_update - last_update` subtraction raise
`TypeError`; a zero new count with an advanced count raises
`ZeroDivisionError` in the average update. -/
def ProgressInfo.update_value (p : ProgressInfo) (c : Int) (now : PyDateTime) :
    Except PyError ProgressInfo :=
  match p.now_update with
  | none => .error .typeError
  | some nu =>
    let time_diff := timedelta_seconds (PyDateTime.sub now nu)
    let proceed_count := c - p.count
    if 0 < proceed_count then
      if c = 0 then .error .zeroDivisionError
      else .ok { p with
        last_update := p.now_update, count := c, now_update := some now,
        update_time_average :=
          p.update_time_average + (time_diff / (proceed_count : Rat) - p.update_time_average) / (c : Rat) }
    else .ok { p with last_update := p.now_update, count := c, now_update := some now }

/-- `ProgressInfo._get_relative_count`. -/
def ProgressInfo._get_relative_count (p : ProgressInfo) : Int :=
  p.count - p.min_value

/-- `ProgressInfo._get_total`. -/
def ProgressInfo._get_total (p : ProgressInfo) : Int :=
  p.max_value - p.min_value

/-- `ProgressInfo._get_percentage`: `100 * (count - min_value) /
(max_value - min_value)` with Python true division of integers, which
raises `ZeroDivisionError` when `max_value - min_value == 0`. -/
def ProgressInfo._get_percentage (p : ProgressInfo) : Except PyError Rat :=
  if p.max_value - p.min_value = 0 then .error .zeroDivisionError
  else .ok (((100 * (p.count - p.min_value) : Int) : Rat) / ((p.max_value - p.min_value : Int) : Rat))

/-- `ProgressInfo._get_remaining_time`: `(max_value - count) *
update_time_average`. -/
def ProgressInfo._get_remaining_time (p : ProgressInfo) : Rat :=
  ((p.max_value - p.count : Int) : Rat) * p.update_time_average

/-- `ProgressInfo.close()`: set the closed flag. -/
def ProgressInfo.close (p : ProgressInfo) : ProgressInfo :=
  { p with closed := 1 }

/-- `ProgressInfo.calc_byte_length()`: `struct.calcsize("@illlidididd")`
on a 64-bit little-endian host — 4 (i) + 4 pad + 3×8 (l) + 4 (i) + 4 pad
+ 8 (d) + 4 (i) + 4 pad + 8 (d) + 4 (i) + 4 pad + 8 (d) + 8 (d) = 88. -/
def ProgressInfo.calc_byte_length : Nat := 88

/-- The eleven values carried by a `struct.pack("@illlidididd", ...)`
buffer, in field order. -/
structure PackedRecord where
  closed : Int
  min_value : Int
  max_value : Int
  count : Int
  start_ord : Int
  start_sec : Rat
  last_ord : Int
  last_sec : Rat
  now_ord : Int
  now_sec : Rat
  update_time_average : Rat
deriving DecidableEq

/-- A backing-file content.  `spaces n` is `n` filler bytes 0x20 (what
`ProgressView.initialize` writes); `packed r extra` is the 88-byte
`struct.pack` image of `r` followed by `extra` junk bytes that are never
read back (an in-place mmap write of 88 bytes into a longer file leaves
the tail behind). -/
inductive Bytes where
  | spaces (n : Nat)
  | packed (r : PackedRecord) (extra : Nat)
deriving DecidableEq

/-- Length in bytes of a file content. -/
def Bytes.len : Bytes → Nat
  | .spaces n => n
  | .packed _ extra => 88 + extra

/-- `mm.read(88)`: the first 88 bytes of the content (fewer if the file
is shorter). -/
def Bytes.first88 : Bytes → Bytes
  | .spaces n => .spaces (min n 88)
  | .packed r _ => .packed r 0

/-- The IEEE-754 double whose byte image is eight 0x20 bytes:
sign 0, exponent 0x202, mantissa 0x0202020202020. -/
def spacesDouble : Rat :=
  ((2 ^ 52 + 0x0202020202020 : Nat) : Rat) / 2 ^ 561

/-- The `PackedRecord` decoded from 88 bytes of 0x20: the `i` fields read
0x20202020, the `l` fields read 0x2020202020202020, and the `d` fields
read `spacesDouble` (padding bytes are skipped by `struct.unpack`). -/
def spacesRecord : PackedRecord :=
  { closed := 0x20202020, min_value := 0x2020202020202020,
    max_value := 0x2020202020202020, count := 0x2020202020202020,
    start_ord := 0x20202020, start_sec := spacesDouble,
    last_ord := 0x20202020, last_sec := spacesDouble,
    now_ord := 0x20202020, now_sec := spacesDouble,
    update_time_average := spacesDouble }

/-- `struct.unpack("@illlidididd", buffer)`: raises `struct.error` unless
the buffer is exactly 88 bytes long. -/
def unpack_record : Bytes → Except PyError PackedRecord
  | .spaces n => if n = 88 then .ok spacesRecord else .error .structError
  | .packed r extra => if extra = 0 then .ok r else .error .structError

/-- Does the value fit a native signed 32-bit `int` (`struct` format
`i`)? -/
def fits32 (x : Int) : Prop := -(2 ^ 31) ≤ x ∧ x < 2 ^ 31

instance (x : Int) : Decidable (fits32 x) := by unfold fits32; infer_instance

/-- Does the value fit a native signed 64-bit `long` (`struct` format
`l`)? -/
def fits64 (x : Int) : Prop := -(2 ^ 63) ≤ x ∧ x < 2 ^ 63

instance (x : Int) : Decidable (fits64 x) := by unfold fits64; infer_instance

/-- The value tuple written by `ProgressInfo.dump_to_bytes`: the four
integer fields, the three `to_time_pair` images, and the average.
`to_time_pair` on a `None` timestamp raises `AttributeError`
(`None.toordinal()`); `struct.pack` raises `struct.error` when an integer
argument does not fit its format. -/
def ProgressInfo.dump_record (p : ProgressInfo) : Except PyError PackedRecord :=
  match p.start_time, p.last_update, p.now_update with
  | some st, some lu, some nu =>
    let ps := to_time_pair st
    let pl := to_time_pair lu
    let pn := to_time_pair nu
    if fits32 p.closed ∧ fits64 p.min_value ∧ fits64 p.max_value ∧ fits64 p.count ∧
        fits32 ps.1 ∧ fits32 pl.1 ∧ fits32 pn.1 then
      .ok { closed := p.closed, min_value := p.min_value, max_value := p.max_value,
            count := p.count, start_ord := ps.1, start_sec := ps.2,
            last_ord := pl.1, last_sec := pl.2, now_ord := pn.1, now_sec := pn.2,
            update_time_average := p.update_time_average }
    else .error .structError
  | _, _, _ => .error .attributeError

/-- `ProgressInfo.dump_to_bytes()`: the 88-byte `struct.pack` image. -/
def ProgressInfo.dump_to_bytes (p : ProgressInfo) : Except PyError Bytes :=
  (p.dump_record).map (fun r => Bytes.packed r 0)

/-- `ProgressInfo.load_from_bytes(buffer)`: `struct.unpack` then
`from_time_pair` on each decoded time pair (in start, last, now order).
Every stored field of the record is overwritten, so the result does not
depend on the record the method is called on; the timestamp fields
receive `None` because `from_time_pair` returns `None`. -/
def ProgressInfo.load_from_bytes (buffer : Bytes) : Except PyError ProgressInfo := do
  let u ← unpack_record buffer
  let st ← from_time_pair u.start_ord u.start_sec
  let lu ← from_time_pair u.last_ord u.last_sec
  let nu ← from_time_pair u.now_ord u.now_sec
  pure { closed := u.closed, min_value := u.min_value, max_value := u.max_value,
         count := u.count, start_time := st, last_update := lu, now_update := nu,
         update_time_average := u.update_time_average }

/-- The host filesystem restricted to the backing files: an association
list from paths to file contents (most recent write first). -/
abbrev FileSystem := List (String × Bytes)

/-- Content of the file at a path, if it exists. -/
def FileSystem.lookup (fs : FileSystem) (path : String) : Option Bytes :=
  List.lookup path fs

/-- Remove the file at a path (`os.remove` without the error check). -/
def FileSystem.remove (fs : FileSystem) (path : String) : FileSystem :=
  fs.filter (fun e => e.1 != path)

/-- Create or overwrite the file at a path. -/
def FileSystem.write (fs : FileSystem) (path : String) (b : Bytes) : FileSystem :=
  (path, b) :: fs.remove path

/-- `ProgressView.__init__(name, writable=False)`: stores the name, the
canonical backing-file path, and the writable flag. -/
structure ProgressView where
  name : String
  tempname_path : String
  writable : Bool
deriving DecidableEq

/-- Construct a `ProgressView`, with the host temp directory explicit. -/
def ProgressView.make (tempdir name : String) (writable : Bool) : ProgressView :=
  { name := name, tempname_path := get_temp_path tempdir name, writable := writable }

/-- `ProgressView.update(progress)`: raise `ValueError` if the view is not
writable; open the backing file `"r+b"` (`FileNotFoundError`, an
`OSError`, if absent); `mmap` it (`ValueError` on an empty file); and
`mm.write` the 88-byte `dump_to_bytes` image (`ValueError` if the mapping
is shorter than the data).  A longer file keeps its tail bytes. -/
def ProgressView.update (v : ProgressView) (fs : FileSystem) (progress : ProgressInfo) :
    Except PyError FileSystem :=
  if ¬ v.writable then .error .valueError
  else
    match fs.lookup v.tempname_path with
    | none => .error .osError
    | some content =>
      if content.len = 0 then .error .valueError
      else
        match progress.dump_record with
        | .error e => .error e
        | .ok r =>
          if content.len < 88 then .error .valueError
          else .ok (fs.write v.tempname_path (.packed r (content.len - 88)))

/-- `ProgressView.initialize()` from the source (named `init` here):
open the backing file `"wb"` (create or truncate) and write
`calc_byte_length` single space bytes.  Note there is no writability
check. -/
def ProgressView.init (v : ProgressView) (fs : FileSystem) : FileSystem :=
  fs.write v.tempname_path (.spaces ProgressInfo.calc_byte_length)

/-- `ProgressView.delete()`: raise `ValueError` if the view is not
writable; `os.remove` the backing file (`FileNotFoundError`, an
`OSError`, if absent). -/
def ProgressView.delete (v : ProgressView) (fs : FileSystem) : Except PyError FileSystem :=
  if ¬ v.writable then .error .valueError
  else
    match fs.lookup v.tempname_path with
    | none => .error .osError
    | some _ => .ok (fs.remove v.tempname_path)

/-- `ProgressView.get()`: open the backing file read-only and decode its
first 88 bytes, returning `None` when `OSError` (absent file) or
`ValueError` (empty file fails to mmap; `datetime.fromordinal` rejects an
out-of-range ordinal) is raised; any other exception — notably
`struct.error` from a short read — propagates to the caller. -/
def ProgressView.get (v : ProgressView) (fs : FileSystem) :
    Except PyError (Option ProgressInfo) :=
  match fs.lookup v.tempname_path with
  | none => .ok none
  | some content =>
    if content.len = 0 then .ok none
    else
      match ProgressInfo.load_from_bytes content.first88 with
      | .ok progress => .ok (some progress)
      | .error .osError => .ok none
      | .error .valueError => .ok none
      | .error e => .error e

/-- `ProgressView.exists()`: `os.path.exists` on the backing path. -/
def ProgressView.file_exists (v : ProgressView) (fs : FileSystem) : Bool :=
  (fs.lookup v.tempname_path).isSome

/-- The process-wide mutable context a `MultiprocessedProgress` touches:
the filesystem and the `main_name_provider` name table. -/
structure World where
  fs : FileSystem
  names : NameProvider
deriving DecidableEq

/-- The fields of a `MultiprocessedProgress` handle. -/
structure MultiprocessedProgress where
  name : String
  interface : ProgressView
  info : ProgressInfo
deriving DecidableEq

/-- `MultiprocessedProgress.__init__(name, min_value, max_value)`:
allocate a unique name from the shared provider, build a writable view,
build a fresh `ProgressInfo` with the bounds and `count = min_value`,
initialize the backing file and write the first record.  The three
`datetime.now()` calls of `ProgressInfo.__init__` are passed as
`t1 t2 t3`.  (On an error the model discards the partial mutations.) -/
def MultiprocessedProgress.create (w : World) (tempdir name : String)
    (min_value max_value : Int) (t1 t2 t3 : PyDateTime) :
    Except PyError (MultiprocessedProgress × World) := do
  let (n, names2) ← w.names.get_name name
  let interface := ProgressView.make tempdir n true
  let info : ProgressInfo :=
    { ProgressInfo.make t1 t2 t3 with
      min_value := min_value, max_value := max_value, count := min_value }
  let fs1 := interface.init w.fs
  let fs2 ← interface.update fs1 info
  pure ({ name := n, interface := interface, info := info },
        { fs := fs2, names := names2 })

/-- `MultiprocessedProgress.update(count)`: `info.update_value(count)`
then `interface.update(info)`, with the fresh `datetime.now()` passed as
`now`. -/
def MultiprocessedProgress.update (mp : MultiprocessedProgress) (w : World)
    (count : Int) (now : PyDateTime) :
    Except PyError (MultiprocessedProgress × World) := do
  let info2 ← mp.info.update_value count now
  let fs2 ← mp.interface.update w.fs info2
  pure ({ mp with info := info2 }, { w with fs := fs2 })

/-- `MultiprocessedProgress.finish()`: delete the backing file, then mark
the record closed.  Note it never calls `erase_name`, so the name table
is untouched. -/
def MultiprocessedProgress.finish (mp : MultiprocessedProgress) (w : World) :
    Except PyError (MultiprocessedProgress × World) := do
  let fs2 ← mp.interface.delete w.fs
  pure ({ mp with info := mp.info.close }, { w with fs := fs2 })

/-! Concrete scenario values used by the theorems below. -/

/-- A sample wall-clock instant (midnight of day ordinal 738000,
2021-06-24). -/
def sample_time : PyDateTime := { ordinal := 738000, usec := 0 }

/-- A sample noon instant on the same day. -/
def sample_noon : PyDateTime := { ordinal := 738000, usec := 43200000000 }

/-- A fully populated record used to exercise the encode/decode
round-trip. -/
def rt_record : ProgressInfo :=
  { closed := 1, min_value := -5, max_value := 100, count := 42,
    start_time := some sample_noon, last_update := some sample_noon,
    now_update := some sample_noon, update_time_average := 3 / 2 }

/-- A record with `max_value == min_value` (the degenerate range). -/
def pct_degenerate : ProgressInfo :=
  { closed := 0, min_value := 0, max_value := 0, count := 0,
    start_time := none, last_update := none, now_update := none,
    update_time_average := 0 }

/-- The spec's percentage example: `min=0, max=100, count=40`. -/
def pct_example : ProgressInfo :=
  { closed := 0, min_value := 0, max_value := 100, count := 40,
    start_time := none, last_update := none, now_update := none,
    update_time_average := 0 }

/-- A half-done record with range 0..10 and count 5. -/
def pct_half : ProgressInfo :=
  { closed := 0, min_value := 0, max_value := 10, count := 5,
    start_time := none, last_update := none, now_update := none,
    update_time_average := 0 }

/-- The backing path of the "job" stream under `/tmp`. -/
def scn_path : String := "/tmp/mpprogress.job.tmp"

/-- The producer-side view of the "job" stream. -/
def scn_view : ProgressView :=
  { name := "job", tempname_path := scn_path, writable := true }

/-- The producer's in-memory record at count `c` in the lifecycle
scenario (all three clock reads returned `sample_time`). -/
def scn_info (c : Int) : ProgressInfo :=
  { closed := 0, min_value := 0, max_value := 100, count := c,
    start_time := some sample_time, last_update := some sample_time,
    now_update := some sample_time, update_time_average := 0 }

/-- The packed image of `scn_info c` in the backing file. -/
def scn_rec (c : Int) : PackedRecord :=
  { closed := 0, min_value := 0, max_value := 100, count := c,
    start_ord := 738000, start_sec := 0, last_ord := 738000, last_sec := 0,
    now_ord := 738000, now_sec := 0, update_time_average := 0 }

/-- The producer handle at count `c` in the lifecycle scenario. -/
def scn_mp (c : Int) : MultiprocessedProgress :=
  { name := "job", interface := scn_view, info := scn_info c }

/-- The world at count `c` in the lifecycle scenario. -/
def scn_w (c : Int) : World :=
  { fs := [(scn_path, Bytes.packed (scn_rec c) 0)], names := ["job"] }

/-- An independent read-only observer of the "job" stream. -/
def scn_obs : ProgressView := ProgressView.make "/tmp" "job" false

/-- What an observer decodes at count `c`: the integer fields round-trip,
the timestamps come back as `None`. -/
def scn_decoded (c : Int) : ProgressInfo :=
  { closed := 0, min_value := 0, max_value := 100, count := c,
    start_time := none, last_update := none, now_update := none,
    update_time_average := 0 }

/-- The producer handle after `finish()` in the lifecycle scenario. -/
def scn_mp_end : MultiprocessedProgress :=
  { name := "job", interface := scn_view,
    info := { scn_info 90 with closed := 1 } }

/-- The world after `finish()` in the lifecycle scenario. -/
def scn_w_end : World := { fs := [], names := ["job"] }

/-- Run of `MultiprocessedProgress("job", 0, 100)` followed by `finish()`
followed by `update(10)` (all clock reads return `sample_time`). -/
def after_finish_update : Except PyError (MultiprocessedProgress × World) := do
  let (mp1, w1) ← MultiprocessedProgress.create { fs := [], names := [] } "/tmp" "job" 0 100
    sample_time sample_time sample_time
  let (mp2, w2) ← mp1.finish w1
  mp2.update w2 10 sample_time

/-- A writable view used by the update-after-finish witness. -/
def c4_view : ProgressView :=
  { name := "jobx", tempname_path := "/tmp/mpprogress.jobx.tmp", writable := true }

/-- The record held by the update-after-finish witness's handle. -/
def c4_info : ProgressInfo :=
  { closed := 0, min_value := 0, max_value := 100, count := 0,
    start_time := some sample_time, last_update := some sample_time,
    now_update := some sample_time, update_time_average := 0 }

/-- The update-after-finish witness's handle before `finish()`. -/
def c4_mp : MultiprocessedProgress :=
  { name := "jobx", interface := c4_view, info := c4_info }

/-- The world before `finish()` in the update-after-finish witness. -/
def c4_w : World :=
  { fs := [("/tmp/mpprogress.jobx.tmp", Bytes.spaces 88)], names := ["jobx"] }

/-- The handle after `finish()` in the update-after-finish witness. -/
def c4_mp2 : MultiprocessedProgress :=
  { name := "jobx", interface := c4_view, info := { c4_info with closed := 1 } }

/-- The world after `finish()` in the update-after-finish witness. -/
def c4_w2 : World := { fs := [], names := ["jobx"] }

/-- The record produced by `update_value(10)` on the finished handle's
record. -/
def c4_info2 : ProgressInfo :=
  { closed := 1, min_value := 0, max_value := 100, count := 10,
    start_time := some sample_time, last_update := some sample_time,
    now_update := some sample_time, update_time_average := 0 }

/-- Run of two producers for base name "x" in one process, the second
created after the first finished. -/
def reuse_after_finish : Except PyError (String × NameProvider) := do
  let (mp1, w1) ← MultiprocessedProgress.create { fs := [], names := [] } "/tmp" "x" 0 100
    sample_time sample_time sample_time
  let (_, w2) ← mp1.finish w1
  let (mp3, w3) ← MultiprocessedProgress.create w2 "/tmp" "x" 0 100
    sample_time sample_time sample_time
  pure (mp3.name, w3.names)

/-- A name table holding "x" and all 1000 suffixed candidates. -/
def big_table : NameProvider :=
  "x" :: (List.range 1000).map (fun i => "x" ++ toString i)

/-- A record used by the no-advance witness (count 5). -/
def c7_record : ProgressInfo :=
  { closed := 0, min_value := 0, max_value := 10, count := 5,
    start_time := some sample_time, last_update := some sample_time,
    now_update := some sample_time, update_time_average := 7 / 4 }

/-! Helper lemmas. -/

/-- Removing a path removes it: the canonical association-list fact the
delete/finish theorems rest on. -/
theorem lookup_remove_self (fs : FileSystem) (p : String) :
    FileSystem.lookup (FileSystem.remove fs p) p = none := by
  induction fs with
  | nil => rfl
  | cons e fs ih =>
    obtain ⟨k, b⟩ := e
    by_cases h : k = p
    · simpa [FileSystem.remove, FileSystem.lookup, List.filter_cons, h] using ih
    · have hb : (k != p) = true := by simp [bne_iff_ne, h]
      have hb2 : (p == k) = false := by
        simp only [beq_eq_false_iff_ne, ne_eq]
        exact fun hpk => h hpk.symm
      simpa [FileSystem.remove, FileSystem.lookup, List.filter_cons, hb, List.lookup, hb2]
        using ih

/-- `List.find?` over `List.range' s n` returns the least index satisfying
the predicate. -/
theorem range'_find_eq_some (p : Nat → Bool) (i : Nat) :
    ∀ (s n : Nat), s ≤ i → i < s + n → p i = true →
      (∀ j, s ≤ j → j < i → p j = false) → (List.range' s n).find? p = some i := by
  intro s n
  induction n generalizing s with
  | zero => omega
  | succ n ih =>
    intro hs hi hp hmin
    rw [List.range'_succ]
    by_cases h : p s
    · have hsi : s = i := by
        by_contra hne
        have hlt : s < i := lt_of_le_of_ne hs hne
        have := hmin s le_rfl hlt
        rw [this] at h
        exact Bool.noConfusion h
      rw [hsi] at h ⊢
      exact List.find?_cons_of_pos _ h
    · rw [List.find?_cons_of_neg _ (by simpa using h)]
      have hsi : s < i := by
        rcases lt_or_eq_of_le hs with hlt | heq
        · exact hlt
        · rw [← heq] at hp; rw [hp] at h; exact absurd rfl h
      exact ih (s + 1) hsi (by omega) hp (fun j hj hji => hmin j (by omega) hji)

/-- `List.find?` over `List.range n` returns the least index satisfying
the predicate. -/
theorem range_find_eq_some (p : Nat → Bool) (i n : Nat) (hin : i < n) (hp : p i = true)
    (hmin : ∀ j, j < i → p j = false) : (List.range n).find? p = some i := by
  rw [List.range_eq_range']
  exact range'_find_eq_some p i 0 n (Nat.zero_le i) (by omega) hp
    (fun j _ hji => hmin j hji)

/-! Claim theorems. -/

/-- C1: the claim says `load_from_bytes (dump_to_bytes r)` reproduces
every stored field of `r`.  The integer fields and the average do round
trip, but the three timestamp fields come back as `None`, because
`from_time_pair` computes the datetime and then falls off the end of the
function without returning it.  This theorem evaluates the code at a
concrete record with genuine timestamps. -/
theorem C1_roundtrip_loses_timestamps :
    rt_record.dump_to_bytes.bind ProgressInfo.load_from_bytes =
      .ok { closed := 1, min_value := -5, max_value := 100, count := 42,
            start_time := none, last_update := none, now_update := none,
            update_time_average := 3 / 2 } ∧
    rt_record.start_time = some sample_noon ∧
    rt_record.last_update = some sample_noon ∧
    rt_record.now_update = some sample_noon := by
  refine ⟨by rfl, rfl, rfl, rfl⟩

/-- C2 counterexample: a backing file holding 10 bytes (non-empty but
shorter than the 88-byte record) makes `ProgressView.get` raise
`struct.error` instead of returning `None`, refuting the claim that the
observer read never raises on structurally undecodable bytes. -/
theorem C2_short_file_raises :
    (ProgressView.make "/tmp" "job" false).get
      [((ProgressView.make "/tmp" "job" false).tempname_path, Bytes.spaces 10)] =
      .error PyError.structError := by rfl

/-- C2 (amended): `ProgressView.get` returns `None` when the backing file
is absent, when it is empty (its mmap raises `ValueError`), and when its
first 88 bytes decode but the time ordinals fall outside the datetime
range (a `ValueError` from `fromordinal`, e.g. a space-filled file); but
a non-empty file SHORTER than 88 bytes raises `struct.error` to the
caller. -/
theorem C2_get_error_containment :
    (∀ (v : ProgressView) (fs : FileSystem),
      fs.lookup v.tempname_path = none → v.get fs = .ok none) ∧
    (∀ (v : ProgressView) (fs : FileSystem) (b : Bytes),
      fs.lookup v.tempname_path = some b → b.len = 0 → v.get fs = .ok none) ∧
    (∀ (v : ProgressView) (fs : FileSystem) (n : Nat),
      fs.lookup v.tempname_path = some (.spaces n) → 88 ≤ n → v.get fs = .ok none) ∧
    (∀ (v : ProgressView) (fs : FileSystem) (b : Bytes),
      fs.lookup v.tempname_path = some b → 0 < b.len → b.len < 88 →
        v.get fs = .error .structError) := by
  refine ⟨?_, ?_, ?_, ?_⟩
  · intro v fs h
    simp [ProgressView.get, h]
  · intro v fs b h hb
    simp [ProgressView.get, h, hb]
  · intro v fs n h hn
    have h0 : ¬ (Bytes.len (.spaces n) = 0) := by simp [Bytes.len]; omega
    have hmin : min n 88 = 88 := by omega
    simp [ProgressView.get, h, h0, Bytes.first88, hmin]
    rfl
  · intro v fs b h h0 h88
    match b with
    | .packed r extra => simp [Bytes.len] at h88
    | .spaces n =>
      simp [Bytes.len] at h0 h88
      have hne : ¬ (Bytes.len (.spaces n) = 0) := by simp [Bytes.len]; omega
      have hmin : min n 88 = n := by omega
      simp only [ProgressView.get, h, hne, if_false, Bytes.first88, hmin,
        ProgressInfo.load_from_bytes, unpack_record, Nat.ne_of_lt h88, if_neg, ite_false]
      rfl

/-- C2 witness: the amended read-path behaviors at concrete inputs — an
absent file, an empty file, a space-filled 88-byte file (each `None`),
and a 10-byte file (propagated `struct.error`). -/
theorem C2_witness :
    (ProgressView.make "/tmp" "x" false).get [] = .ok none ∧
    (ProgressView.make "/tmp" "x" false).get
      [((ProgressView.make "/tmp" "x" false).tempname_path, Bytes.spaces 0)] = .ok none ∧
    (ProgressView.make "/tmp" "x" false).get
      [((ProgressView.make "/tmp" "x" false).tempname_path, Bytes.spaces 88)] = .ok none ∧
    (ProgressView.make "/tmp" "x" false).get
      [((ProgressView.make "/tmp" "x" false).tempname_path, Bytes.spaces 10)] =
      .error .structError := by
  refine ⟨C2_get_error_containment.1 _ _ rfl,
          C2_get_error_containment.2.1 _ _ _ rfl rfl,
          C2_get_error_containment.2.2.1 _ _ 88 rfl (by decide),
          C2_get_error_containment.2.2.2 _ _ _ rfl (by decide) (by decide)⟩

/-- C3 counterexample: on a record with `max_value == min_value`,
evaluating the percentage raises `ZeroDivisionError` (Python integer
true division by zero), refuting the claim that it yields NaN without
raising. -/
theorem C3_degenerate_range_raises :
    pct_degenerate._get_percentage = .error PyError.zeroDivisionError := by rfl

/-- C3 (amended): the percentage is `100 * (count - min_value) /
(max_value - min_value)` whenever `max_value != min_value` (so 40.0 on
the spec's `min=0, max=100, count=40` example), and accessing it with
`max_value == min_value` raises `ZeroDivisionError` rather than yielding
NaN. -/
theorem C3_percentage_characterization :
    (∀ p : ProgressInfo, p.max_value ≠ p.min_value →
      p._get_percentage =
        .ok (((100 * (p.count - p.min_value) : Int) : Rat) /
             ((p.max_value - p.min_value : Int) : Rat))) ∧
    (∀ p : ProgressInfo, p.max_value = p.min_value →
      p._get_percentage = .error .zeroDivisionError) ∧
    pct_example._get_percentage = .ok 40 := by
  refine ⟨?_, ?_, by rfl⟩
  · intro p h
    have : ¬ (p.max_value - p.min_value = 0) := by omega
    simp [ProgressInfo._get_percentage, this]
  · intro p h
    have : p.max_value - p.min_value = 0 := by omega
    simp [ProgressInfo._get_percentage, this]

/-- C3 witness: the amended characterization applied at concrete records
(range 0..10 with count 5, and the degenerate record). -/
theorem C3_witness :
    pct_half._get_percentage = .ok 50 ∧
    pct_degenerate._get_percentage = .error .zeroDivisionError := by
  constructor
  · have h := C3_percentage_characterization.1 pct_half (by decide)
    rw [h]; rfl
  · exact C3_percentage_characterization.2.1 pct_degenerate rfl

set_option maxRecDepth 100000 in
/-- C4 counterexample: the concrete run create → finish → update(10)
fails with the `OSError` (`FileNotFoundError`) of opening the deleted
backing file, not with an `AlreadyFinished` error — no code path produces
one. -/
theorem C4_update_after_finish_is_oserror :
    after_finish_update = .error PyError.osError := by rfl

/-- C4 (amended): after a successful `finish()`, a subsequent
`update(count)` does fail, but with the `OSError` raised when
`ProgressView.update` opens the deleted backing file — not with an
`AlreadyFinished` error, which the code never defines or raises. -/
theorem C4_update_after_finish_raises :
    ∀ (mp : MultiprocessedProgress) (w : World) (mp2 : MultiprocessedProgress) (w2 : World)
      (c : Int) (now : PyDateTime) (info2 : ProgressInfo),
      mp.finish w = .ok (mp2, w2) →
      mp2.info.update_value c now = .ok info2 →
      mp2.update w2 c now = .error .osError := by
  intro mp w mp2 w2 c now info2 hfin hupd
  unfold MultiprocessedProgress.finish at hfin
  rcases hdel : mp.interface.delete w.fs with e | fs2
  · rw [hdel] at hfin; exact absurd hfin (by simp [Bind.bind, Except.bind])
  · rw [hdel] at hfin
    simp only [Bind.bind, Except.bind, pure, Except.pure, Except.ok.injEq, Prod.mk.injEq] at hfin
    obtain ⟨hmp2, hw2⟩ := hfin
    subst hmp2
    subst hw2
    dsimp only at hupd
    unfold ProgressView.delete at hdel
    by_cases hwr : mp.interface.writable
    · rw [if_neg (not_not_intro (by simpa using hwr))] at hdel
      rcases hlk : FileSystem.lookup w.fs mp.interface.tempname_path with _ | content
      · rw [hlk] at hdel; exact absurd hdel (by simp)
      · rw [hlk] at hdel
        simp only [Except.ok.injEq] at hdel
        subst hdel
        unfold MultiprocessedProgress.update ProgressView.update
        simp only [Bind.bind, Except.bind]
        simp [hupd, hwr, lookup_remove_self]
    · rw [if_pos (by simpa using hwr)] at hdel
      exact absurd hdel (by simp)

/-- C4 witness: the amended statement applied at a concrete finished
handle — updating it reports the `OSError` of the missing backing
file. -/
theorem C4_witness : c4_mp2.update c4_w2 10 sample_time = .error .osError :=
  C4_update_after_finish_raises c4_mp c4_w c4_mp2 c4_w2 10 sample_time c4_info2
    (by rfl) (by rfl)

set_option maxRecDepth 100000 in
/-- C5: the full lifecycle scenario.  `start("job", 0, 100)` leaves a
backing file that an independent observer decodes to `count=0, min=0,
max=100, closed=0`; after each `update(i)` for i in 10, 50, 90 the
observer reads back `count = i`; after `finish()` the file is gone,
`exists()` is false and `get()` returns `None`. -/
theorem C5_lifecycle :
    MultiprocessedProgress.create { fs := [], names := [] } "/tmp" "job" 0 100
        sample_time sample_time sample_time = .ok (scn_mp 0, scn_w 0) ∧
    scn_obs.file_exists (scn_w 0).fs = true ∧
    scn_obs.get (scn_w 0).fs = .ok (some (scn_decoded 0)) ∧
    (scn_mp 0).update (scn_w 0) 10 sample_time = .ok (scn_mp 10, scn_w 10) ∧
    scn_obs.get (scn_w 10).fs = .ok (some (scn_decoded 10)) ∧
    (scn_mp 10).update (scn_w 10) 50 sample_time = .ok (scn_mp 50, scn_w 50) ∧
    scn_obs.get (scn_w 50).fs = .ok (some (scn_decoded 50)) ∧
    (scn_mp 50).update (scn_w 50) 90 sample_time = .ok (scn_mp 90, scn_w 90) ∧
    scn_obs.get (scn_w 90).fs = .ok (some (scn_decoded 90)) ∧
    (scn_mp 90).finish (scn_w 90) = .ok (scn_mp_end, scn_w_end) ∧
    scn_obs.file_exists scn_w_end.fs = false ∧
    scn_obs.get scn_w_end.fs = .ok none := by
  refine ⟨by rfl, by rfl, by rfl, by rfl, by rfl, by rfl, by rfl, by rfl, by rfl,
    by rfl, by rfl, by rfl⟩

set_option maxRecDepth 100000 in
/-- C6: the name registry contract.  `get_name(base)` returns `base` when
it is unallocated; otherwise the first free of `base+"0"`, `base+"1"`, …
(up to 1000 candidates); when the base and all 1000 suffixed candidates
are taken it raises the registry-exhausted `RuntimeError` (the spec's
`NameExhausted`); `erase_name` releases a name; and the concrete
scenarios: `get_name("x")` twice yields `"x"` then `"x0"`, and after
`erase_name("x")` a fresh `get_name("x")` yields `"x"` again. -/
theorem C6_name_registry :
    (∀ (np : NameProvider) (base : String), base ∉ np →
      np.get_name base = .ok (base, base :: np)) ∧
    (∀ (np : NameProvider) (base : String) (i : Nat), base ∈ np → i < 1000 →
      (base ++ toString i) ∉ np → (∀ j, j < i → (base ++ toString j) ∈ np) →
      np.get_name base = .ok (base ++ toString i, (base ++ toString i) :: np)) ∧
    (∀ (np : NameProvider) (base : String), base ∈ np →
      (∀ i, i < 1000 → (base ++ toString i) ∈ np) →
      np.get_name base = .error (.runtimeError "Name provider index exceeds limit")) ∧
    (∀ (np : NameProvider) (name : String), name ∉ np.erase_name name) ∧
    (NameProvider.get_name [] "x" = .ok ("x", ["x"]) ∧
     NameProvider.get_name ["x"] "x" = .ok ("x0", ["x0", "x"]) ∧
     NameProvider.get_name (NameProvider.erase_name ["x"] "x") "x" = .ok ("x", ["x"])) := by
  refine ⟨?_, ?_, ?_, ?_, by rfl, by rfl, by rfl⟩
  · intro np base h
    unfold NameProvider.get_name
    rw [if_pos h]
  · intro np base i hbase hi hfree hprev
    unfold NameProvider.get_name
    rw [if_neg (not_not_intro hbase)]
    rw [range_find_eq_some _ i 1000 hi (by simpa using hfree)
      (fun j hj => by simpa using not_not_intro (hprev j hj))]
  · intro np base hbase hall
    unfold NameProvider.get_name
    rw [if_neg (not_not_intro hbase)]
    rw [List.find?_eq_none.mpr ?_]
    intro i hi
    simpa using not_not_intro (hall i (List.mem_range.mp hi))
  · intro np name
    simp [NameProvider.erase_name, List.mem_filter]

/-- C6 witness: the contract applied at concrete registries — a fresh
base, a taken base with the first suffix free, and the fully exhausted
table of "x" plus all 1000 suffixed candidates. -/
theorem C6_witness :
    NameProvider.get_name [] "y" = .ok ("y", ["y"]) ∧
    NameProvider.get_name ["y"] "y" = .ok ("y0", ["y0", "y"]) ∧
    big_table.get_name "x" = .error (.runtimeError "Name provider index exceeds limit") ∧
    "y" ∉ NameProvider.erase_name ["y"] "y" := by
  refine ⟨C6_name_registry.1 [] "y" (by simp),
          C6_name_registry.2.1 ["y"] "y" 0 (by simp) (by omega) (by decide)
            (fun j hj => absurd hj (by omega)),
          C6_name_registry.2.2.1 big_table "x" (List.mem_cons_self _ _) ?_,
          C6_name_registry.2.2.2.1 ["y"] "y"⟩
  intro i hi
  exact List.mem_cons_of_mem _ (List.mem_map.mpr ⟨i, List.mem_range.mpr hi, rfl⟩)

/-- C7: a non-advancing `update_value` (new count at most the old one)
leaves `update_time_average` (and `start_time`) unchanged while still
shifting `last_update` to the previous `now_update` and refreshing
`now_update`; and whenever a successful `update_value` changes
`update_time_average` at all, the count strictly increased. -/
theorem C7_no_advance_keeps_average :
    (∀ (p : ProgressInfo) (c : Int) (now nu : PyDateTime),
      p.now_update = some nu → c ≤ p.count →
      p.update_value c now =
        .ok { p with last_update := p.now_update, count := c, now_update := some now }) ∧
    (∀ (p : ProgressInfo) (c : Int) (now : PyDateTime) (p2 : ProgressInfo),
      p.update_value c now = .ok p2 →
      p2.update_time_average ≠ p.update_time_average → p.count < c) := by
  constructor
  · intro p c now nu hnu hc
    simp only [ProgressInfo.update_value, hnu]
    rw [if_neg (show ¬ (0 : Int) < c - p.count by omega)]
  · intro p c now p2 hupd hne
    rcases hnu : p.now_update with _ | nu
    · simp only [ProgressInfo.update_value, hnu] at hupd
      exact absurd hupd (by simp)
    · simp only [ProgressInfo.update_value, hnu] at hupd
      by_cases hlt : 0 < c - p.count
      · omega
      · rw [if_neg hlt] at hupd
        simp only [Except.ok.injEq] at hupd
        have : p2.update_time_average = p.update_time_average := by rw [← hupd]
        exact absurd this hne

/-- C7 witness: a repeated count (5 after 5) at a concrete record leaves
the stored average 7/4 in place while the timestamps advance. -/
theorem C7_witness :
    c7_record.update_value 5 sample_noon =
      .ok { closed := 0, min_value := 0, max_value := 10, count := 5,
            start_time := some sample_time, last_update := some sample_time,
            now_update := some sample_noon, update_time_average := 7 / 4 } :=
  C7_no_advance_keeps_average.1 c7_record 5 sample_noon sample_time (by rfl) (by decide)

/-- C8: the backing path is the fixed pattern
`<tempdir>/mpprogress.<name>.tmp` for every stream name, whenever the
temp directory is a normal absolute directory (non-empty, no trailing
separator) — so an observer can rebuild the path from the name alone. -/
theorem C8_temp_path_pattern :
    ∀ (tempdir name : String), tempdir ≠ "" → endsWithSlash tempdir = false →
      get_temp_path tempdir name = tempdir ++ "/" ++ ("mpprogress." ++ name ++ ".tmp") := by
  intro tempdir name h1 h2
  unfold get_temp_path os_path_join
  have habs : isAbsPath ("mpprogress." ++ name ++ ".tmp") = false := by
    unfold isAbsPath
    have hdata : ("mpprogress." ++ name ++ ".tmp").data =
        'm' :: ("pprogress.".data ++ (name.data ++ ".tmp".data)) := by
      cases name with
      | mk l => rfl
    rw [hdata]
    rfl
  rw [if_neg (by simp [habs])]
  rw [if_neg (by simp [h1, h2])]

/-- C8 witness: the pattern at the standard temp directory and a sample
name. -/
theorem C8_witness : get_temp_path "/tmp" "xy" = "/tmp/mpprogress.xy.tmp" :=
  (C8_temp_path_pattern "/tmp" "xy" (by decide) (by rfl)).trans (by rfl)

/-- C9: `ProgressView.initialize` performs no writability check — on a
view built with `writable=False` it still (re)creates the backing file
and fills it with 88 placeholder bytes — whereas `update` and `delete`
on the same read-only view raise the not-writable `ValueError`. -/
theorem C9_init_skips_writability_check :
    ∀ (tempdir name : String) (fs : FileSystem) (p : ProgressInfo),
      (ProgressView.make tempdir name false).init fs =
        fs.write (get_temp_path tempdir name) (.spaces 88) ∧
      (ProgressView.make tempdir name false).update fs p = .error .valueError ∧
      (ProgressView.make tempdir name false).delete fs = .error .valueError := by
  intro tempdir name fs p
  refine ⟨rfl, ?_, ?_⟩
  · simp [ProgressView.update, ProgressView.make]
  · simp [ProgressView.delete, ProgressView.make]

set_option maxRecDepth 100000 in
/-- C10: `finish()` never releases the stream's name back to the shared
registry: a successful `finish` leaves the world's name table exactly as
it was; concretely, a second producer for base name "x" created after
the first finished is allocated "x0", and the table still holds both. -/
theorem C10_finish_keeps_name_allocated :
    (∀ (mp mp2 : MultiprocessedProgress) (w w2 : World),
      mp.finish w = .ok (mp2, w2) → w2.names = w.names) ∧
    reuse_after_finish = .ok ("x0", ["x0", "x"]) := by
  constructor
  · intro mp mp2 w w2 hfin
    unfold MultiprocessedProgress.finish at hfin
    rcases hdel : mp.interface.delete w.fs with e | fs2
    · rw [hdel] at hfin; exact absurd hfin (by simp [Bind.bind, Except.bind])
    · rw [hdel] at hfin
      simp only [Bind.bind, Except.bind, pure, Except.pure, Except.ok.injEq,
        Prod.mk.injEq] at hfin
      rw [← hfin.2]
  · rfl

/-- C10 witness: the frame property applied at a concrete finish — the
name table after finishing the "jobx" producer is the one it started
with. -/
theorem C10_witness : c4_w2.names = c4_w.names :=
  C10_finish_keeps_name_allocated.1 c4_mp c4_mp2 c4_w c4_w2 (by rfl)
